import Mathlib

/-!
Verification development for the AdGen AI ad-generation pipeline.

The TypeScript sources are shallowly embedded. Every external effect —
network responses, streamed generation chunks, storage outcomes, the done
flag of the long-running video operation — is passed in explicitly as
data; code that can throw is modeled with Except; strings are modeled as
Lean strings, or as lists of characters where character-level scanning
matters. Each definition mirrors one function of
src/services/aiService.ts (the file contains two revisions of the
service; both are embedded), src/services/marketingpostService.ts, or the
upload handlers of src/pages/CreateAd.tsx and the marketing-posts page.
-/

namespace AdGen

/-! ## Character-list toolkit mirroring the JavaScript string operations -/

/-- ASCII approximation of the JavaScript regex class backslash-s (space,
tab, newline, carriage return, vertical tab, form feed). -/
def isJsSpace (c : Char) : Bool :=
  c == ' ' || c == '\t' || c == '\n' || c == '\r' || c == Char.ofNat 11 || c == Char.ofNat 12

/-- JavaScript String.prototype.trimStart on a character list. -/
def trimLeftL (s : List Char) : List Char := s.dropWhile isJsSpace

/-- JavaScript String.prototype.trimEnd on a character list. -/
def trimRightL (s : List Char) : List Char := (s.reverse.dropWhile isJsSpace).reverse

/-- JavaScript String.prototype.trim on a character list. -/
def trimFullL (s : List Char) : List Char := trimRightL (trimLeftL s)

/-- s.startsWith pat, first argument is the pattern. -/
def startsWithL : List Char → List Char → Bool
  | [], _ => true
  | _ :: _, [] => false
  | p :: ps, c :: cs => p == c && startsWithL ps cs

/-- s.endsWith pat, first argument is the pattern. -/
def endsWithL (pat s : List Char) : Bool := startsWithL pat.reverse s.reverse

/-- s.includes pat, first argument is the pattern. -/
def occursIn (pat : List Char) : List Char → Bool
  | [] => startsWithL pat []
  | c :: rest => startsWithL pat (c :: rest) || occursIn pat rest

/-- The markdown fence token of three backticks. -/
def fenceTok : List Char := "```".data

/-- The json-tagged markdown fence opener. -/
def fenceJsonTok : List Char := "```json".data

/-- The backtick character, written by code point to keep source plain. -/
def btChar : Char := Char.ofNat 96

/-- A character list that contains no backtick at all (hence no fence). -/
def noBacktick (s : List Char) : Prop := ∀ c ∈ s, c ≠ btChar

/-- Anchored replace of the regex that removes one trailing fence plus the
whitespace run before it (replace slash-backslash-s-star-fence-dollar with
the empty string): it fires exactly when the text ends with the fence. -/
def dropClosingFence (s : List Char) : List Char :=
  if endsWithL fenceTok s then trimRightL (s.take (s.length - 3)) else s

/-- The fence-stripping step of aiService.generateVariationPromptsWithOpenAI
(aiService.ts lines 300-307, same code in both revisions and in
generateImageStyles and generateVideoPrompts): trim, then, if the text
starts with a json-tagged fence, drop that opener with the whitespace run
after it and one trailing fence; same for an untagged fence; otherwise
leave the trimmed text alone. -/
def cleanFencedResponse (s : List Char) : List Char :=
  let c := trimFullL s
  if startsWithL fenceJsonTok c then
    dropClosingFence (trimLeftL (c.drop 7))
  else if startsWithL fenceTok c then
    dropClosingFence (trimLeftL (c.drop 3))
  else c

/-- Global (g-flagged) replace of one fence token together with the
whitespace run following it, scanning left to right and continuing after
each removal, exactly like String.prototype.replace with a g-flagged
regex. Structural fuel makes the scan computable; fuel at least the list
length is always enough because every step consumes at least one
character. -/
def stripAllTok (tok : List Char) : Nat → List Char → List Char
  | 0, s => s
  | _ + 1, [] => []
  | fuel + 1, c :: rest =>
    if startsWithL tok (c :: rest) then
      stripAllTok tok fuel (((c :: rest).drop tok.length).dropWhile isJsSpace)
    else
      c :: stripAllTok tok fuel rest

/-- The fence-stripping step of marketingpostService.analyzeImage
(marketingpostService.ts lines 120-123, also generateMarketingContent):
remove EVERY json-tagged fence occurrence, then EVERY fence occurrence,
each with the whitespace run after it, then trim. -/
def cleanGlobalResponse (s : List Char) : List Char :=
  let s1 := stripAllTok fenceJsonTok s.length s
  let s2 := stripAllTok fenceTok s1.length s1
  trimFullL s2

/-! ## Upload handlers: CreateAd.tsx handleImageUpload (lines 56-66) and the
marketing-posts page handleImageUpload (src/unnamed/part_001 lines 45-65) -/

/-- The only fields of the selected File the handlers read. -/
structure UploadFile where
  size : Nat
  name : String
deriving DecidableEq

/-- Observable actions of the upload handlers, in program order. -/
inductive UploadAction where
  | toastError (title : String)
  | setUploadedImage (f : UploadFile)
  | readAsDataURL (f : UploadFile)
  | variationRequest (f : UploadFile)
  | showUploadModal
deriving DecidableEq

/-- The size limit checked by both handlers: 10 * 1024 * 1024 bytes. -/
def maxUploadBytes : Nat := 10 * 1024 * 1024

/-- CreateAd.tsx handleImageUpload: take the first selected file; reject
with a toast when size exceeds the limit, otherwise store the file, start
the FileReader encoding and fire the variation generation call. -/
def handleImageUpload (files : List UploadFile) : List UploadAction :=
  match files.head? with
  | none => []
  | some f =>
    if f.size > maxUploadBytes then
      [UploadAction.toastError "File too large"]
    else
      [UploadAction.setUploadedImage f, UploadAction.readAsDataURL f,
       UploadAction.variationRequest f]

/-- The marketing-posts page handleImageUpload: same size gate; on success
it stores the file, starts the FileReader encoding and opens the upload
modal instead of calling the network. -/
def handleImageUploadMarketing (files : List UploadFile) : List UploadAction :=
  match files.head? with
  | none => []
  | some f =>
    if f.size > maxUploadBytes then
      [UploadAction.toastError "File too large"]
    else
      [UploadAction.setUploadedImage f, UploadAction.readAsDataURL f,
       UploadAction.showUploadModal]

/-- Effect of a handler run on the uploadedImage state variable. -/
def appliedUploadedImage (st : Option UploadFile) (acts : List UploadAction) :
    Option UploadFile :=
  acts.foldl
    (fun s a =>
      match a with
      | UploadAction.setUploadedImage f => some f
      | _ => s)
    st

/-! ## Image analysis: analyzeImageWithGPT4oMini, revision 1 (aiService.ts
lines 163-223) and revision 2 (lines 1046-1115) -/

/-- Outcome of the OpenAI chat-completions request, supplied by the
environment: response.ok, response.statusText and the optional content of
choices[0].message. -/
structure OpenAIChatEnv where
  respOk : Bool
  statusText : String
  content : Option String

/-- Result shape of revision 1 of analyzeImageWithGPT4oMini. -/
structure ProductIdAnalysis where
  productName : String
  productType : String
deriving DecidableEq

/-- Result shape of revision 2 of analyzeImageWithGPT4oMini. -/
structure FullAnalysis where
  productType : String
  colors : List String
  style : String
  mood : String
  keyFeatures : List String
  description : String
  rawAnalysis : Option String
deriving DecidableEq

/-- JavaScript v-or-default for strings: the empty string is falsy, so it
also falls back to the default. -/
def jsOrDefault (v : Option String) (dflt : String) : String :=
  match v with
  | some s => if s = "" then dflt else s
  | none => dflt

/-- The configuration error thrown by revision 1 when the key is absent. -/
def openaiKeyErrMsg : String :=
  "OpenAI API key is required for image analysis. Please add VITE_OPENAI_API_KEY to your environment variables."

/-- Revision 1 of analyzeImageWithGPT4oMini. The second component counts
network requests issued. An empty key throws the configuration error
before any fetch; a non-ok response throws; otherwise the trimmed content
(or the string Product when empty or absent) becomes both fields. -/
def analyzeImageWithGPT4oMini (openaiApiKey : String) (env : OpenAIChatEnv) :
    Except String ProductIdAnalysis × Nat :=
  if openaiApiKey = "" then
    (Except.error openaiKeyErrMsg, 0)
  else if env.respOk = false then
    (Except.error ("OpenAI API error: " ++ env.statusText), 1)
  else
    let productName := jsOrDefault (env.content.map String.trim) "Product"
    (Except.ok { productName := productName, productType := productName }, 1)

/-- The canned analysis revision 2 returns when the key is absent. -/
def mockAnalysis : FullAnalysis :=
  { productType := "Product",
    colors := ["#FF6B6B", "#4ECDC4", "#45B7D1"],
    style := "Modern",
    mood := "Professional",
    keyFeatures := ["High quality", "Contemporary design"],
    description := "Mock analysis - Add OpenAI API key for real analysis",
    rawAnalysis := none }

/-- Revision 2 of analyzeImageWithGPT4oMini: an empty key returns the
mock analysis WITHOUT failing and without a network request; otherwise one
request is made and a fixed-shape analysis carries the response text. -/
def analyzeImageWithGPT4oMiniV2 (openaiApiKey : String) (env : OpenAIChatEnv) :
    Except String FullAnalysis × Nat :=
  if openaiApiKey = "" then
    (Except.ok mockAnalysis, 0)
  else if env.respOk = false then
    (Except.error ("OpenAI API error: " ++ env.statusText), 1)
  else
    let analysisText := match env.content with
      | some c => c
      | none => ""
    (Except.ok
      { productType := "Product",
        colors := ["#FF6B6B", "#4ECDC4", "#45B7D1"],
        style := "Modern",
        mood := "Professional",
        keyFeatures := ["High quality", "Contemporary design"],
        description := analysisText,
        rawAnalysis := some analysisText }, 1)

/-! ## Video generation: generateVideoWithVeo (aiService.ts lines 506-588,
identical logic in both revisions) and generateVideo (lines 744-835,
revision 1 only) -/

/-- Return shape of generateVideoWithVeo. -/
structure VideoResult where
  videoUrl : Option String
  videoPrompt : String
deriving DecidableEq

/-- The polling ceiling of generateVideoWithVeo. -/
def veoMaxAttempts : Nat := 12

/-- The bounded polling loop of generateVideoWithVeo:
while (not operation.done and attempts < maxAttempts) poll. doneAt n is
the done flag observed after n polls (doneAt 0 on the fresh operation);
budget is maxAttempts minus attempts. Returns the final attempts count. -/
def pollWhile (doneAt : Nat → Bool) : Nat → Nat → Nat
  | 0, attempts => attempts
  | budget + 1, attempts =>
    if doneAt attempts then attempts else pollWhile doneAt budget (attempts + 1)

/-- Environment of one generateVideoWithVeo run. -/
structure VeoEnv where
  doneAt : Nat → Bool
  generatedUri : Option String
  fetchOk : Bool
  fetchStatus : Nat
  blobUrl : String
  videoPromptText : String

/-- The fixed always-available sample clip. -/
def fallbackVideoUrl : String :=
  "https://commondatastorage.googleapis.com/gtv-videos-bucket/sample/BigBuckBunny.mp4"

/-- The artifact returned by the catch block of generateVideoWithVeo. -/
def fallbackVideoResult : VideoResult :=
  { videoUrl := some fallbackVideoUrl, videoPrompt := "Fallback video due to generation error" }

/-- The try block of generateVideoWithVeo: poll up to 12 times, throw on
timeout, on missing result URI, or on a failed video fetch; on success
return the blob URL with the generated prompt. -/
def veoTryBody (env : VeoEnv) : Except String VideoResult :=
  let attempts := pollWhile env.doneAt veoMaxAttempts 0
  if env.doneAt attempts = false then Except.error "Video generation timeout"
  else
    match env.generatedUri with
    | some _ =>
      if env.fetchOk then
        Except.ok { videoUrl := some env.blobUrl, videoPrompt := env.videoPromptText }
      else Except.error ("Video fetch failed: " ++ toString env.fetchStatus)
    | none => Except.error "No video generated"

/-- generateVideoWithVeo: the uninitialized-client throw sits before the
try, so it escapes; every failure inside the try is converted by the catch
into the fixed fallback artifact. -/
def generateVideoWithVeo (googleGenAIReady : Bool) (env : VeoEnv) :
    Except String VideoResult :=
  if googleGenAIReady = false then Except.error "Google GenAI not initialized"
  else
    match veoTryBody env with
    | Except.ok r => Except.ok r
    | Except.error _ => Except.ok fallbackVideoResult

/-- The UNBOUNDED polling loop of generateVideo (lines 778-781):
while (not operation.done) poll — no attempt ceiling. fuel is the number
of loop iterations we are willing to observe; none means the loop is
still running after that many polls; some a means it exited after a
polls. -/
def pollUnbounded (doneAt : Nat → Bool) : Nat → Nat → Option Nat
  | 0, _ => none
  | fuel + 1, attempts =>
    if doneAt attempts then some attempts else pollUnbounded doneAt fuel (attempts + 1)

/-- Return shape of generateVideo (VideoGenerationResponse). -/
structure VideoGenResponse where
  videoUrl : String
  prompt : String
  status : String
  error : Option String
deriving DecidableEq

/-- Environment of one generateVideo run. -/
structure GenVideoEnv where
  doneAt : Nat → Bool
  hasResponse : Bool
  videoUris : List (Option String)
  fetchOk : Bool
  fetchStatus : Nat
  uploadOk : Bool
  uploadErrMsg : String
  supabasePublicUrl : String

/-- The try block of generateVideo: poll without a ceiling, then throw on
a missing response, an empty video list, a missing URI, a failed fetch or
a failed storage upload; on success return the public URL with status
completed. The database insert is swallowed internally and cannot throw. -/
def genVideoTryBody (prompt : String) (env : GenVideoEnv) (fuel : Nat) :
    Option (Except String VideoGenResponse) :=
  match pollUnbounded env.doneAt fuel 0 with
  | none => none
  | some _ =>
    some
      (if env.hasResponse = false then Except.error "No videos generated."
       else
        match env.videoUris.head? with
        | none => Except.error "No videos were generated."
        | some none => Except.error "Generated video is missing a URI."
        | some (some _) =>
          if env.fetchOk = false then
            Except.error ("Failed to fetch video: " ++ toString env.fetchStatus)
          else if env.uploadOk = false then Except.error env.uploadErrMsg
          else
            Except.ok
              { videoUrl := env.supabasePublicUrl, prompt := prompt,
                status := "completed", error := none })

/-- generateVideo: the missing-credential throw sits before the try and
escapes as a rejection; every failure inside the try is converted by the
catch into a RESOLVED response with status failed, an EMPTY videoUrl and
the error message. -/
def generateVideo (googleReady : Bool) (prompt : String) (env : GenVideoEnv) (fuel : Nat) :
    Option (Except String VideoGenResponse) :=
  if googleReady = false then
    some (Except.error "Google API is required for video generation")
  else
    match genVideoTryBody prompt env fuel with
    | none => none
    | some (Except.ok r) => some (Except.ok r)
    | some (Except.error e) =>
      some (Except.ok { videoUrl := "", prompt := prompt, status := "failed", error := some e })

/-! ## Image variation fan-out: aiService.generateImageVariations (revision
1, lines 324-452) and marketingpostService.generateImageVariations (lines
174-258) -/

/-- The inlineData field of a streamed chunk, when present. -/
structure InlineData where
  data : Option String
  mimeType : Option String
deriving DecidableEq

/-- One streamed chunk, reduced to the only path the code inspects:
candidates[0].content.parts[0].inlineData. -/
structure StreamChunk where
  inlineData : Option InlineData
deriving DecidableEq

/-- The image payload a chunk contributes: present exactly when inlineData
exists and its data field is truthy (present and non-empty), mirroring
if (not inlineData.data) continue. -/
def chunkImage (c : StreamChunk) : Option InlineData :=
  match c.inlineData with
  | some d =>
    match d.data with
    | some payload => if payload = "" then none else some d
    | none => none
  | none => none

/-- First-image-wins stream consumption: scan the chunks in order and
return the payload of the first chunk contributing an image, breaking out
of the loop there; later chunks are never inspected. -/
def firstInlineImage : List StreamChunk → Option InlineData
  | [] => none
  | c :: rest =>
    match chunkImage c with
    | some d => some d
    | none => firstInlineImage rest

/-- One variation prompt record (name, prompt, description). -/
structure VariationPromptRec where
  name : String
  prompt : String
  description : String
deriving DecidableEq

/-- A generated image variation as returned to callers. -/
structure Variation where
  url : String
  style : String
  description : String
deriving DecidableEq

/-- Per-prompt persistence environment: the storage upload outcome (public
URL or error), the metadata-row insert outcome, and the blob URL
URL.createObjectURL would mint for the decoded bytes. -/
structure PersistEnv where
  supabaseUpload : Except String String
  dbInsert : Except String Unit
  blobUrl : String

/-- saveImageVariationToDatabase (revision 1, lines 480-504): the insert
error is rethrown inside the inner try and caught by the surrounding
catch of the same function, which only logs — the caller never sees a
failure. -/
def saveImageVariationToDatabase (ins : Except String Unit) : Except String Unit :=
  match ins with
  | Except.ok _ => Except.ok ()
  | Except.error _ => Except.ok ()

/-- URL resolution for a decoded image (lines 402-413): with a user
context, try the storage upload and fall back to the blob URL on failure;
without a user context, use the blob URL directly. -/
def resolveImageUrl (userId : Option String) (env : PersistEnv) : String :=
  match userId with
  | some _ =>
    match env.supabaseUpload with
    | Except.ok url => url
    | Except.error _ => env.blobUrl
  | none => env.blobUrl

/-- Per-prompt body of aiService.generateImageVariations (lines 385-439):
take the first inline-data chunk, resolve its URL, save metadata when a
user context is present (that save swallows its own errors), and push one
variation; a stream with no image chunk throws for this prompt. -/
def processPromptAi (userId : Option String) (p : VariationPromptRec)
    (chunks : List StreamChunk) (env : PersistEnv) : Except String Variation :=
  match firstInlineImage chunks with
  | some _ =>
    let url := resolveImageUrl userId env
    match
      (match userId with
       | some _ => saveImageVariationToDatabase env.dbInsert
       | none => Except.ok ()) with
    | Except.ok _ => Except.ok { url := url, style := p.name, description := p.description }
    | Except.error e => Except.error e
  | none => Except.error ("Failed to generate image for " ++ p.name)

/-- Environment of one prompt run: the stream (or the rejection of the
generateContentStream call) plus the persistence environment. -/
structure PromptRunEnv where
  stream : Except String (List StreamChunk)
  persist : PersistEnv

/-- One prompt run in aiService.generateImageVariations. -/
def runPromptAi (userId : Option String) (p : VariationPromptRec) (env : PromptRunEnv) :
    Except String Variation :=
  match env.stream with
  | Except.error e => Except.error e
  | Except.ok chunks => processPromptAi userId p chunks env.persist

/-- The fan-out loop of aiService.generateImageVariations (lines 360-444):
prompts are processed sequentially; the per-style catch RETHROWS a wrapped
error, so the first failing prompt aborts the whole loop and the function
returns no list at all. -/
def generateImageVariationsLoop (userId : Option String)
    (envOf : VariationPromptRec → PromptRunEnv) :
    List VariationPromptRec → Except String (List Variation)
  | [] => Except.ok []
  | p :: rest =>
    match runPromptAi userId p (envOf p) with
    | Except.ok v =>
      (generateImageVariationsLoop userId envOf rest).map (fun vs => v :: vs)
    | Except.error e =>
      Except.error ("Failed to generate image for " ++ p.name ++ ": " ++ e)

/-- Per-prompt body of marketingpostService.generateImageVariations (lines
219-251): first inline-data chunk wins and is uploaded (an upload failure
throws into the per-prompt catch); a stream with no image chunk only logs
a warning and contributes nothing — it does NOT throw. -/
def processPromptMp (p : VariationPromptRec) (chunks : List StreamChunk)
    (upload : Except String String) : Except String (Option Variation) :=
  match firstInlineImage chunks with
  | some _ =>
    match upload with
    | Except.ok url =>
      Except.ok (some { url := url, style := p.name, description := p.description })
    | Except.error e => Except.error e
  | none => Except.ok none

/-- One prompt run in marketingpostService.generateImageVariations. -/
def runPromptMp (p : VariationPromptRec) (env : PromptRunEnv) :
    Except String (Option Variation) :=
  match env.stream with
  | Except.error e => Except.error e
  | Except.ok chunks => processPromptMp p chunks env.persist.supabaseUpload

/-- The fan-out loop of marketingpostService.generateImageVariations
(lines 196-255): every per-prompt error is caught and logged, a missing
image is warn-skipped, and the loop always continues to the next prompt. -/
def mpFanout (envOf : VariationPromptRec → PromptRunEnv) :
    List VariationPromptRec → List Variation
  | [] => []
  | p :: rest =>
    match runPromptMp p (envOf p) with
    | Except.ok (some v) => v :: mpFanout envOf rest
    | Except.ok none => mpFanout envOf rest
    | Except.error _ => mpFanout envOf rest

/-! ## Prompt generation: generateVariationPromptsWithOpenAI (lines
226-322, same logic in both revisions) and the prompt selection of
generateImageVariations, revision 1 (lines 332-346) versus revision 2
(lines 1229-1261) -/

/-- One parsed array entry before field defaulting. -/
structure RawPromptRec where
  name : Option String
  prompt : Option String
  description : Option String
deriving DecidableEq

/-- Outcome of JSON.parse on the cleaned response text. -/
inductive ParsedResponse where
  | parseFail
  | notArray
  | arr (items : List RawPromptRec)
deriving DecidableEq

/-- Field defaulting applied to each of the first three entries. -/
def normalizePromptRec (r : RawPromptRec) : VariationPromptRec :=
  { name := jsOrDefault r.name "Generated Style",
    prompt := jsOrDefault r.prompt "Transform this product with creative styling",
    description := jsOrDefault r.description "AI-generated variation" }

/-- Environment of one generateVariationPromptsWithOpenAI run. -/
structure PromptsEnv where
  respOk : Bool
  statusText : String
  parsed : ParsedResponse
deriving DecidableEq

/-- generateVariationPromptsWithOpenAI: empty key throws; non-ok response
throws; a JSON.parse failure rethrows; a non-array or an array with fewer
than 3 entries throws Invalid response format from OpenAI; an array of at
least 3 yields exactly the first 3 entries with field defaults. -/
def generateVariationPromptsWithOpenAI (key : String) (env : PromptsEnv) :
    Except String (List VariationPromptRec) :=
  if key = "" then Except.error "OpenAI API key not available"
  else if env.respOk = false then Except.error ("OpenAI API error: " ++ env.statusText)
  else
    match env.parsed with
    | ParsedResponse.parseFail => Except.error "Unexpected token in JSON"
    | ParsedResponse.notArray => Except.error "Invalid response format from OpenAI"
    | ParsedResponse.arr items =>
      if 3 ≤ items.length then
        Except.ok ((items.take 3).map normalizePromptRec)
      else Except.error "Invalid response format from OpenAI"

/-- The error revision 1 throws when no prompts were produced. -/
def v1NoPromptsErrMsg : String :=
  "Failed to generate image variation prompts. Please try again."

/-- Prompt selection in revision 1 of generateImageVariations: the OpenAI
call is attempted only with a key, its failure is caught leaving an empty
list, and an empty list is a hard error — no defaults. -/
def selectVariationPrompts (key : String)
    (promptsResult : Except String (List VariationPromptRec)) :
    Except String (List VariationPromptRec) :=
  let ps :=
    if key = "" then []
    else
      match promptsResult with
      | Except.ok l => l
      | Except.error _ => []
  if ps.length = 0 then Except.error v1NoPromptsErrMsg else Except.ok ps

/-- The three hardcoded default prompts of revision 2 (lines 1244-1260). -/
def defaultVariationPrompts : List VariationPromptRec :=
  [{ name := "Modern Minimal",
     prompt := "Transform this product into a modern minimal style with clean lines, soft colors, and contemporary design. Keep the product recognizable but apply minimalist aesthetics.",
     description := "Clean and contemporary design" },
   { name := "Bold Dynamic",
     prompt := "Transform this product into a bold dynamic style with vibrant colors, strong contrast, and energetic composition. Keep the product recognizable but apply dynamic visual impact.",
     description := "Strong visual impact" },
   { name := "Luxury Premium",
     prompt := "Transform this product into a luxury premium style with elegant lighting, rich tones, and sophisticated composition. Keep the product recognizable but apply high-end aesthetics.",
     description := "High-end aesthetic" }]

/-- Prompt selection in revision 2 of generateImageVariations: identical
to revision 1 except that an empty list is SILENTLY replaced by the three
default prompts instead of raising. -/
def selectVariationPromptsV2 (key : String)
    (promptsResult : Except String (List VariationPromptRec)) : List VariationPromptRec :=
  let ps :=
    if key = "" then []
    else
      match promptsResult with
      | Except.ok l => l
      | Except.error _ => []
  if ps.length = 0 then defaultVariationPrompts else ps

/-! ## generateAd (aiService.ts lines 105-149, identical in both revisions) -/

/-- A thrown JavaScript value: either an Error object with its message, or
any other value (for which the catch substitutes Unknown error). -/
inductive JsErr where
  | errObj (message : String)
  | other
deriving DecidableEq

/-- The message extraction of the generateAd catch:
error instanceof Error ? error.message : the Unknown error string. -/
def errMessage : JsErr → String
  | JsErr.errObj m => m
  | JsErr.other => "Unknown error"

/-- A thrown value whose extracted message is informative: Error objects
carry a non-empty message (non-Error throws already map to Unknown
error). -/
def JsErr.wellFormed : JsErr → Prop
  | JsErr.errObj m => m ≠ ""
  | JsErr.other => True

/-- The request flags generateAd branches on. -/
structure AdRequest where
  skipVariations : Bool
  includeVideoEffects : Bool

/-- generatedContent of a completed AdGenerationResponse. -/
structure AdContent where
  imageAnalysis : ProductIdAnalysis
  videoUrl : Option String
  videoPromptText : Option String
  generatedImages : Option (List Variation)
deriving DecidableEq

/-- AdGenerationResponse, minus the timestamp id. -/
structure AdResponse where
  status : String
  generatedContent : Option AdContent
  error : Option String
deriving DecidableEq

/-- Outcomes of the four awaited steps of generateAd, supplied by the
environment (each corresponds to one of the modeled service calls). -/
structure GenerateAdEnv where
  encode : Except JsErr Unit
  analysis : Except JsErr ProductIdAnalysis
  variations : Except JsErr (List Variation)
  googleReady : Bool
  video : Except JsErr VideoResult

/-- Every step error of a generateAd environment is informative. -/
def GenerateAdEnv.wellFormed (env : GenerateAdEnv) : Prop :=
  (∀ e, env.encode = Except.error e → e.wellFormed) ∧
  (∀ e, env.analysis = Except.error e → e.wellFormed) ∧
  (∀ e, env.variations = Except.error e → e.wellFormed) ∧
  (∀ e, env.video = Except.error e → e.wellFormed)

/-- The try block of generateAd: encode, analyze, optionally generate the
variations (skipVariations gate), optionally generate the video
(includeVideoEffects AND initialized client gate), then assemble the
completed content. The first throwing step aborts the block. -/
def generateAdBody (req : AdRequest) (env : GenerateAdEnv) : Except JsErr AdContent :=
  match env.encode with
  | Except.error e => Except.error e
  | Except.ok _ =>
    match env.analysis with
    | Except.error e => Except.error e
    | Except.ok analysis =>
      match (if req.skipVariations then Except.ok none else env.variations.map some) with
      | Except.error e => Except.error e
      | Except.ok imgs =>
        match
          (if req.includeVideoEffects && env.googleReady then env.video.map some
           else Except.ok none) with
        | Except.error e => Except.error e
        | Except.ok vid =>
          Except.ok
            { imageAnalysis := analysis,
              videoUrl :=
                match vid with
                | some v => v.videoUrl
                | none => none,
              videoPromptText := vid.map VideoResult.videoPrompt,
              generatedImages := imgs }

/-- generateAd: the whole body sits in a try whose catch converts any
thrown value into a resolved response with status failed and the
extracted message; the success path resolves with status completed and
the assembled content. The function never rejects. -/
def generateAd (req : AdRequest) (env : GenerateAdEnv) : AdResponse :=
  match generateAdBody req env with
  | Except.ok c => { status := "completed", generatedContent := some c, error := none }
  | Except.error e =>
    { status := "failed", generatedContent := none, error := some (errMessage e) }

/-! ## Theorems: claim C8 (upload size gate) -/

/-- C8: in both upload handlers, a selected file whose size exceeds
10 MiB is rejected with only the user-facing size toast — no encoding, no
network call, and the uploadedImage state is unchanged — while a file at
or under the limit proceeds to the FileReader encoding and is stored. -/
theorem upload_size_limit (f : UploadFile) (rest : List UploadFile) (st : Option UploadFile) :
    (f.size > maxUploadBytes →
      handleImageUpload (f :: rest) = [UploadAction.toastError "File too large"] ∧
      handleImageUploadMarketing (f :: rest) = [UploadAction.toastError "File too large"] ∧
      appliedUploadedImage st (handleImageUpload (f :: rest)) = st ∧
      UploadAction.readAsDataURL f ∉ handleImageUpload (f :: rest) ∧
      UploadAction.variationRequest f ∉ handleImageUpload (f :: rest)) ∧
    (f.size ≤ maxUploadBytes →
      UploadAction.readAsDataURL f ∈ handleImageUpload (f :: rest) ∧
      UploadAction.readAsDataURL f ∈ handleImageUploadMarketing (f :: rest) ∧
      appliedUploadedImage st (handleImageUpload (f :: rest)) = some f) := by
  constructor
  · intro h
    simp [handleImageUpload, handleImageUploadMarketing, h, appliedUploadedImage]
  · intro h
    have h2 : ¬ (f.size > maxUploadBytes) := not_lt.mpr h
    simp [handleImageUpload, handleImageUploadMarketing, h2, appliedUploadedImage]

/-- C8 witness: a file one byte over the limit is rejected; a file of
exactly 10 MiB proceeds to encoding. -/
theorem upload_size_limit_witness :
    handleImageUpload [{ size := maxUploadBytes + 1, name := "big.jpg" }] =
      [UploadAction.toastError "File too large"] ∧
    UploadAction.readAsDataURL { size := maxUploadBytes, name := "ok.jpg" } ∈
      handleImageUpload [{ size := maxUploadBytes, name := "ok.jpg" }] := by
  constructor
  · exact ((upload_size_limit { size := maxUploadBytes + 1, name := "big.jpg" } [] none).1
      (by decide)).1
  · exact ((upload_size_limit { size := maxUploadBytes, name := "ok.jpg" } [] none).2
      (by decide)).1

/-! ## Theorems: claim C4 (missing OpenAI credential) -/

/-- C4 counterexample: revision 2 of analyzeImageWithGPT4oMini invoked
with an absent key does NOT fail — it returns the canned mock analysis
successfully (and issues no network request), refuting the claim that
every image-analysis invocation without the credential fails with a
configuration error. -/
theorem missing_key_mock_counterexample :
    analyzeImageWithGPT4oMiniV2 "" { respOk := true, statusText := "", content := none } =
      (Except.ok mockAnalysis, 0) := rfl

/-- C4 (amended): with an absent key, revision 1 fails deterministically
before any network request with the configuration error naming
VITE_OPENAI_API_KEY, while revision 2 instead returns the canned mock
analysis, also without a network request, and does not fail. -/
theorem missing_key_behavior_amended (env : OpenAIChatEnv) :
    analyzeImageWithGPT4oMini "" env = (Except.error openaiKeyErrMsg, 0) ∧
    occursIn "VITE_OPENAI_API_KEY".data openaiKeyErrMsg.data = true ∧
    analyzeImageWithGPT4oMiniV2 "" env = (Except.ok mockAnalysis, 0) :=
  ⟨rfl, by decide, rfl⟩

/-! ## Theorems: claim C1 (video failure fallback) -/

/-- C1 counterexample: a generateVideo invocation whose result fetch fails
resolves with status failed and an EMPTY videoUrl — not the fixed
fallback sample URL — refuting the claim for this video-generation entry
point (aiService.ts lines 825-834). -/
theorem generateVideo_failure_returns_empty_url :
    generateVideo true "make a clip"
      { doneAt := fun _ => true, hasResponse := true, videoUris := [some "uri"],
        fetchOk := false, fetchStatus := 500, uploadOk := true, uploadErrMsg := "up",
        supabasePublicUrl := "https://pub" } 1 =
      some (Except.ok
        { videoUrl := "", prompt := "make a clip", status := "failed",
          error := some "Failed to fetch video: 500" }) ∧
    ("" : String) ≠ fallbackVideoUrl := by
  exact ⟨rfl, by decide⟩

/-- C1 (amended): every failure inside the generateVideoWithVeo chain —
polling timeout, missing result, failed fetch — makes it resolve with the
fixed fallback artifact, whose URL is the sample clip and whose prompt is
non-empty; the generateVideo entry point instead resolves with status
failed, an empty videoUrl and the error message. -/
theorem video_failure_fallback_amended :
    (∀ (env : VeoEnv) (e : String), veoTryBody env = Except.error e →
      generateVideoWithVeo true env = Except.ok fallbackVideoResult ∧
      fallbackVideoResult.videoUrl = some fallbackVideoUrl ∧
      fallbackVideoResult.videoPrompt ≠ "") ∧
    (∀ (env : GenVideoEnv) (prompt : String) (fuel : Nat) (e : String),
      genVideoTryBody prompt env fuel = some (Except.error e) →
      generateVideo true prompt env fuel =
        some (Except.ok { videoUrl := "", prompt := prompt, status := "failed",
                          error := some e })) := by
  constructor
  · intro env e h
    refine ⟨?_, rfl, by decide⟩
    simp [generateVideoWithVeo, h]
  · intro env prompt fuel e h
    simp [generateVideo, h]

/-- C1 witness: a timed-out generateVideoWithVeo run yields the fallback
artifact; a generateVideo run with an empty video list yields the failed
response with an empty URL. -/
theorem video_failure_fallback_witness :
    generateVideoWithVeo true
      { doneAt := fun _ => false, generatedUri := none, fetchOk := true, fetchStatus := 0,
        blobUrl := "", videoPromptText := "" } = Except.ok fallbackVideoResult ∧
    generateVideo true "p"
      { doneAt := fun _ => true, hasResponse := true, videoUris := [], fetchOk := true,
        fetchStatus := 0, uploadOk := true, uploadErrMsg := "", supabasePublicUrl := "" } 3 =
      some (Except.ok { videoUrl := "", prompt := "p", status := "failed",
                        error := some "No videos were generated." }) := by
  constructor
  · exact (video_failure_fallback_amended.1
      { doneAt := fun _ => false, generatedUri := none, fetchOk := true, fetchStatus := 0,
        blobUrl := "", videoPromptText := "" } "Video generation timeout" (by rfl)).1
  · exact video_failure_fallback_amended.2
      { doneAt := fun _ => true, hasResponse := true, videoUris := [], fetchOk := true,
        fetchStatus := 0, uploadOk := true, uploadErrMsg := "", supabasePublicUrl := "" }
      "p" 3 "No videos were generated." (by rfl)

/-! ## Theorems: claim C5 (polling ceiling) -/

/-- C5 counterexample: with a status sequence first reporting done on the
20th check, the unbounded loop of generateVideo performs 20 status checks
— more than the claimed universal ceiling of 12 — whereas the bounded
loop of generateVideoWithVeo stops after 12. -/
theorem unbounded_poll_counterexample :
    pollUnbounded (fun n => decide (20 ≤ n)) 100 0 = some 20 ∧
    pollWhile (fun n => decide (20 ≤ n)) veoMaxAttempts 0 = 12 ∧ 12 < 20 := by
  exact ⟨by decide, by decide, by decide⟩

/-- C5 (amended): the generateVideoWithVeo loop performs at most 12
status checks and a still-not-done operation afterwards is a timeout
failure; the generateVideo loop has NO ceiling — against a never-done
operation it is still polling after any number of checks. -/
theorem polling_bounds_amended :
    (∀ (d : Nat → Bool) (budget start : Nat), pollWhile d budget start ≤ start + budget) ∧
    (∀ env : VeoEnv, env.doneAt (pollWhile env.doneAt veoMaxAttempts 0) = false →
      veoTryBody env = Except.error "Video generation timeout") ∧
    (∀ fuel : Nat, pollUnbounded (fun _ => false) fuel 0 = none) := by
  refine ⟨?_, ?_, ?_⟩
  · intro d budget
    induction budget with
    | zero => intro start; simp [pollWhile]
    | succ b ih =>
      intro start
      by_cases h : d start
      · simp [pollWhile, h]
      · simp only [pollWhile, h, if_false, Bool.false_eq_true]
        calc pollWhile d b (start + 1) ≤ (start + 1) + b := ih (start + 1)
          _ = start + (b + 1) := by omega
  · intro env h
    simp [veoTryBody, h]
  · intro fuel
    suffices h : ∀ (g a : Nat), pollUnbounded (fun _ => false) g a = none from h fuel 0
    intro g
    induction g with
    | zero => intro a; rfl
    | succ g ih => intro a; simpa [pollUnbounded] using ih (a + 1)

/-- C5 witness: the bounded loop against a never-done operation stops at
12 and times out; the unbounded loop is still running after 50 checks. -/
theorem polling_bounds_witness :
    pollWhile (fun _ => false) veoMaxAttempts 0 ≤ 0 + veoMaxAttempts ∧
    veoTryBody
      { doneAt := fun _ => false, generatedUri := none, fetchOk := true, fetchStatus := 0,
        blobUrl := "", videoPromptText := "" } = Except.error "Video generation timeout" ∧
    pollUnbounded (fun _ => false) 50 0 = none := by
  refine ⟨polling_bounds_amended.1 (fun _ => false) veoMaxAttempts 0,
          polling_bounds_amended.2.1 _ (by rfl),
          polling_bounds_amended.2.2 50⟩

/-! ## Theorems: claim C2 (fan-out isolation) -/

/-- C2 counterexample: three prompts where only the second generation
fails: the aiService fan-out aborts with a wrapped error and returns no
list at all — the successful siblings are lost — even though the same
environment generates both siblings when the failing prompt is absent. -/
theorem aiFanout_aborts_batch_counterexample :
    generateImageVariationsLoop none
      (fun p =>
        if p.name = "Style B" then
          { stream := Except.error "endpoint 500",
            persist := { supabaseUpload := Except.ok "u", dbInsert := Except.ok (),
                         blobUrl := "b" } }
        else
          { stream := Except.ok
              [{ inlineData := some { data := some "QUJD", mimeType := some "image/png" } }],
            persist := { supabaseUpload := Except.ok "u", dbInsert := Except.ok (),
                         blobUrl := "b" } })
      [{ name := "Style A", prompt := "pa", description := "da" },
       { name := "Style B", prompt := "pb", description := "db" },
       { name := "Style C", prompt := "pc", description := "dc" }] =
      Except.error "Failed to generate image for Style B: endpoint 500" ∧
    generateImageVariationsLoop none
      (fun p =>
        if p.name = "Style B" then
          { stream := Except.error "endpoint 500",
            persist := { supabaseUpload := Except.ok "u", dbInsert := Except.ok (),
                         blobUrl := "b" } }
        else
          { stream := Except.ok
              [{ inlineData := some { data := some "QUJD", mimeType := some "image/png" } }],
            persist := { supabaseUpload := Except.ok "u", dbInsert := Except.ok (),
                         blobUrl := "b" } })
      [{ name := "Style A", prompt := "pa", description := "da" },
       { name := "Style C", prompt := "pc", description := "dc" }] =
      Except.ok [{ url := "b", style := "Style A", description := "da" },
                 { url := "b", style := "Style C", description := "dc" }] := by
  exact ⟨rfl, rfl⟩

/-- C2 (amended): the marketingpostService fan-out isolates failures —
its result is exactly the successful prompts' variations, in order, and
no per-prompt failure stops the loop — while the aiService fan-out aborts
the whole batch at the first failing prompt with a wrapped error. -/
theorem fanout_isolation_amended :
    (∀ (envOf : VariationPromptRec → PromptRunEnv) (ps : List VariationPromptRec),
      mpFanout envOf ps =
        ps.filterMap (fun p =>
          match runPromptMp p (envOf p) with
          | Except.ok (some v) => some v
          | _ => none)) ∧
    (∀ (userId : Option String) (envOf : VariationPromptRec → PromptRunEnv)
       (pre : List VariationPromptRec) (p : VariationPromptRec)
       (post : List VariationPromptRec) (e : String),
      (∀ q ∈ pre, ∃ v, runPromptAi userId q (envOf q) = Except.ok v) →
      runPromptAi userId p (envOf p) = Except.error e →
      generateImageVariationsLoop userId envOf (pre ++ p :: post) =
        Except.error ("Failed to generate image for " ++ p.name ++ ": " ++ e)) := by
  constructor
  · intro envOf ps
    induction ps with
    | nil => rfl
    | cons q rest ih =>
      rcases h : runPromptMp q (envOf q) with e | o
      · simp [mpFanout, h, ih]
      · rcases o with _ | v <;> simp [mpFanout, h, ih]
  · intro userId envOf pre p post e hok hfail
    induction pre with
    | nil => simp [generateImageVariationsLoop, hfail]
    | cons q pre2 ih =>
      rcases hok q (by simp) with ⟨v, hv⟩
      have ih2 := ih (fun r hr => hok r (by simp [hr]))
      simp [generateImageVariationsLoop, hv, ih2, Except.map]

/-- C2 witness: one successful and one failing prompt — the
marketingpostService fan-out keeps the successful sibling, the aiService
fan-out aborts. -/
theorem fanout_isolation_witness :
    mpFanout
      (fun p =>
        if p.name = "Bad" then
          { stream := Except.error "boom",
            persist := { supabaseUpload := Except.ok "u", dbInsert := Except.ok (),
                         blobUrl := "b" } }
        else
          { stream := Except.ok
              [{ inlineData := some { data := some "QUJD", mimeType := none } }],
            persist := { supabaseUpload := Except.ok "u", dbInsert := Except.ok (),
                         blobUrl := "b" } })
      [{ name := "Good", prompt := "pg", description := "dg" },
       { name := "Bad", prompt := "pb", description := "db" }] =
      [{ url := "u", style := "Good", description := "dg" }] ∧
    generateImageVariationsLoop none
      (fun _ =>
        { stream := Except.error "boom",
          persist := { supabaseUpload := Except.ok "u", dbInsert := Except.ok (),
                       blobUrl := "b" } })
      [{ name := "Bad", prompt := "pb", description := "db" }] =
      Except.error "Failed to generate image for Bad: boom" := by
  constructor
  · rw [fanout_isolation_amended.1]
    rfl
  · exact fanout_isolation_amended.2 none
      (fun _ =>
        { stream := Except.error "boom",
          persist := { supabaseUpload := Except.ok "u", dbInsert := Except.ok (),
                       blobUrl := "b" } })
      [] { name := "Bad", prompt := "pb", description := "db" } [] "boom"
      (by intro q hq; cases hq) (by rfl)

/-! ## Theorems: claim C6 (first-image-wins) -/

/-- C6 counterexample: a stream yielding no inline-data chunk is NOT a
hard failure for that prompt in marketingpostService: the prompt run
returns successfully with no variation, and the fan-out completes
normally, silently skipping the prompt. -/
theorem no_image_soft_skip_counterexample :
    runPromptMp { name := "Style A", prompt := "pa", description := "da" }
      { stream := Except.ok
          [{ inlineData := none },
           { inlineData := some { data := none, mimeType := some "image/png" } }],
        persist := { supabaseUpload := Except.ok "u", dbInsert := Except.ok (),
                     blobUrl := "b" } } = Except.ok none ∧
    mpFanout
      (fun _ =>
        { stream := Except.ok
            [{ inlineData := none },
             { inlineData := some { data := none, mimeType := some "image/png" } }],
          persist := { supabaseUpload := Except.ok "u", dbInsert := Except.ok (),
                       blobUrl := "b" } })
      [{ name := "Style A", prompt := "pa", description := "da" }] = [] := by
  exact ⟨rfl, rfl⟩

/-- C6 (amended): per prompt, at most one variation is produced and it is
built from the first stream chunk carrying inline image data — the
stream after that chunk never influences the result; a stream with no
such chunk is a hard failure for the prompt in
aiService.generateImageVariations, while marketingpostService only
warn-skips it (no variation, no error). -/
theorem first_image_wins_amended :
    (∀ (chunks : List StreamChunk) (d : InlineData),
      firstInlineImage chunks = some d ↔
        ∃ pre c post, chunks = pre ++ c :: post ∧
          (∀ c2 ∈ pre, chunkImage c2 = none) ∧ chunkImage c = some d) ∧
    (∀ chunks : List StreamChunk,
      firstInlineImage chunks = none ↔ ∀ c ∈ chunks, chunkImage c = none) ∧
    (∀ (pre : List StreamChunk) (c : StreamChunk) (post post2 : List StreamChunk)
       (d : InlineData),
      chunkImage c = some d →
      firstInlineImage (pre ++ c :: post) = firstInlineImage (pre ++ c :: post2)) ∧
    (∀ (userId : Option String) (p : VariationPromptRec) (chunks : List StreamChunk)
       (env : PersistEnv),
      firstInlineImage chunks = none →
      processPromptAi userId p chunks env =
        Except.error ("Failed to generate image for " ++ p.name)) ∧
    (∀ (p : VariationPromptRec) (chunks : List StreamChunk) (upload : Except String String),
      firstInlineImage chunks = none → processPromptMp p chunks upload = Except.ok none) := by
  refine ⟨?_, ?_, ?_, ?_, ?_⟩
  · intro chunks d
    induction chunks with
    | nil =>
      simp [firstInlineImage]
    | cons a rest ih =>
      rcases h : chunkImage a with _ | d0
      · constructor
        · intro hf
          simp only [firstInlineImage, h] at hf
          rcases ih.mp hf with ⟨pre, c, post, hdec, hpre, hc⟩
          refine ⟨a :: pre, c, post, by simp [hdec], ?_, hc⟩
          intro c2 hc2
          rcases List.mem_cons.mp hc2 with hc2 | hc2
          · rw [hc2]; exact h
          · exact hpre c2 hc2
        · intro ⟨pre, c, post, hdec, hpre, hc⟩
          rcases pre with _ | ⟨a2, pre2⟩
          · simp at hdec
            rcases hdec with ⟨ha, _⟩
            rw [← ha] at hc
            rw [h] at hc
            cases hc
          · simp at hdec
            rcases hdec with ⟨ha, hrest⟩
            simp only [firstInlineImage, h]
            exact ih.mpr ⟨pre2, c, post, hrest, fun c2 hc2 => hpre c2 (by simp [hc2]), hc⟩
      · simp only [firstInlineImage, h]
        constructor
        · intro hf
          exact ⟨[], a, rest, by simp, by simp, by rw [h, hf]⟩
        · intro ⟨pre, c, post, hdec, hpre, hc⟩
          rcases pre with _ | ⟨a2, pre2⟩
          · simp at hdec
            rcases hdec with ⟨ha, _⟩
            rw [← ha] at hc
            rw [h] at hc
            exact hc
          · simp at hdec
            rcases hdec with ⟨ha, _⟩
            have h2 := hpre a2 (by simp)
            rw [ha] at h
            rw [h2] at h
            cases h
  · intro chunks
    induction chunks with
    | nil => simp [firstInlineImage]
    | cons a rest ih =>
      rcases h : chunkImage a with _ | d0
      · simp only [firstInlineImage, h]
        constructor
        · intro hf c hc
          rcases List.mem_cons.mp hc with hc | hc
          · rw [hc]; exact h
          · exact (ih.mp hf) c hc
        · intro hall
          exact ih.mpr fun c hc => hall c (by simp [hc])
      · simp only [firstInlineImage, h]
        constructor
        · intro hf; cases hf
        · intro hall
          have := hall a (by simp)
          rw [this] at h; cases h
  · intro pre c post post2 d hc
    induction pre with
    | nil => simp [firstInlineImage, hc]
    | cons a pre2 ih =>
      rcases h : chunkImage a with _ | d0 <;> simp [firstInlineImage, h, ih]
  · intro userId p chunks env h
    simp [processPromptAi, h]
  · intro p chunks upload h
    simp [processPromptMp, h]

/-- C6 witness: a stream whose second chunk is the first image chunk —
the third chunk is discarded, aiService fails hard on an imageless
stream, and marketingpostService skips it. -/
theorem first_image_wins_witness :
    firstInlineImage
      [{ inlineData := none },
       { inlineData := some { data := some "AAAA", mimeType := none } },
       { inlineData := some { data := some "BBBB", mimeType := none } }] =
      some { data := some "AAAA", mimeType := none } ∧
    processPromptAi none { name := "S", prompt := "p", description := "d" }
      [{ inlineData := none }]
      { supabaseUpload := Except.ok "u", dbInsert := Except.ok (), blobUrl := "b" } =
      Except.error "Failed to generate image for S" ∧
    processPromptMp { name := "S", prompt := "p", description := "d" }
      [{ inlineData := none }] (Except.ok "u") = Except.ok none := by
  refine ⟨?_, ?_, ?_⟩
  · exact (first_image_wins_amended.1 _ _).mpr
      ⟨[{ inlineData := none }],
       { inlineData := some { data := some "AAAA", mimeType := none } },
       [{ inlineData := some { data := some "BBBB", mimeType := none } }],
       by rfl, by intro c2 hc2; simp at hc2; rw [hc2]; rfl, by rfl⟩
  · exact first_image_wins_amended.2.2.2.1 none { name := "S", prompt := "p", description := "d" }
      [{ inlineData := none }]
      { supabaseUpload := Except.ok "u", dbInsert := Except.ok (), blobUrl := "b" } (by rfl)
  · exact first_image_wins_amended.2.2.2.2 { name := "S", prompt := "p", description := "d" }
      [{ inlineData := none }] (Except.ok "u") (by rfl)

/-! ## Theorems: claim C7 (persistence failures never block the artifact) -/

/-- C7: with a user context and a decoded image, persistence failures
never revoke or block the in-memory artifact: the prompt body always
returns the variation (whose URL is the storage public URL or the blob
URL), a failed storage upload degrades the URL to the ephemeral blob URL,
and the metadata-insert outcome has no influence on the result at all. -/
theorem persistence_isolation (uid : String) (p : VariationPromptRec)
    (chunks : List StreamChunk) (env : PersistEnv) (d : InlineData)
    (h : firstInlineImage chunks = some d) :
    processPromptAi (some uid) p chunks env =
      Except.ok { url := resolveImageUrl (some uid) env, style := p.name,
                  description := p.description } ∧
    (∀ e, env.supabaseUpload = Except.error e → resolveImageUrl (some uid) env = env.blobUrl) ∧
    (∀ ins ins2 : Except String Unit,
      processPromptAi (some uid) p chunks
        { supabaseUpload := env.supabaseUpload, dbInsert := ins, blobUrl := env.blobUrl } =
      processPromptAi (some uid) p chunks
        { supabaseUpload := env.supabaseUpload, dbInsert := ins2, blobUrl := env.blobUrl }) := by
  refine ⟨?_, ?_, ?_⟩
  · cases hdb : env.dbInsert <;>
      simp [processPromptAi, h, saveImageVariationToDatabase, hdb]
  · intro e he
    simp [resolveImageUrl, he]
  · intro ins ins2
    cases ins <;> cases ins2 <;> cases hsu : env.supabaseUpload <;>
      simp [processPromptAi, h, saveImageVariationToDatabase, resolveImageUrl, hsu]

/-- C7 witness: failed upload and failed insert — the variation is still
returned, carrying the blob URL. -/
theorem persistence_isolation_witness :
    processPromptAi (some "user-1") { name := "S", prompt := "p", description := "d" }
      [{ inlineData := some { data := some "AAAA", mimeType := none } }]
      { supabaseUpload := Except.error "storage down", dbInsert := Except.error "table missing",
        blobUrl := "blob:local-7" } =
      Except.ok { url := "blob:local-7", style := "S", description := "d" } := by
  have h := persistence_isolation "user-1" { name := "S", prompt := "p", description := "d" }
    [{ inlineData := some { data := some "AAAA", mimeType := none } }]
    { supabaseUpload := Except.error "storage down", dbInsert := Except.error "table missing",
      blobUrl := "blob:local-7" }
    { data := some "AAAA", mimeType := none } (by rfl)
  rw [h.1, h.2.1 "storage down" (by rfl)]

/-! ## Theorems: claim C3 (exactly three prompts, no silent defaults) -/

/-- C3 counterexample: in revision 2 of generateImageVariations, a failed
prompt-generation call is silently replaced by the three hardcoded
default prompts — no error is raised — refuting the claim that the
component never substitutes default prompts for a failed response. -/
theorem default_prompts_substituted_counterexample :
    selectVariationPromptsV2 "sk-test" (Except.error "OpenAI prompt generation failed") =
      defaultVariationPrompts ∧
    defaultVariationPrompts.map VariationPromptRec.name =
      ["Modern Minimal", "Bold Dynamic", "Luxury Premium"] ∧
    defaultVariationPrompts.length = 3 := by
  exact ⟨rfl, rfl, rfl⟩

/-- C3 (amended): generateVariationPromptsWithOpenAI itself returns
exactly 3 prompts — the first 3 parsed entries with field defaults — and
hard-fails on a parse failure or a short array; revision 1 of the caller
turns an empty prompt list into a hard error, but revision 2 silently
substitutes the three default prompts when the call fails. -/
theorem variation_prompts_amended :
    (∀ (key : String) (env : PromptsEnv) (out : List VariationPromptRec),
      generateVariationPromptsWithOpenAI key env = Except.ok out → out.length = 3) ∧
    (∀ (key : String) (env : PromptsEnv) (items : List RawPromptRec),
      key ≠ "" → env.respOk = true → env.parsed = ParsedResponse.arr items →
      3 ≤ items.length →
      generateVariationPromptsWithOpenAI key env =
        Except.ok ((items.take 3).map normalizePromptRec)) ∧
    (∀ (key : String) (env : PromptsEnv) (items : List RawPromptRec),
      env.parsed = ParsedResponse.arr items → items.length < 3 →
      ∃ e, generateVariationPromptsWithOpenAI key env = Except.error e) ∧
    (∀ (key : String) (env : PromptsEnv),
      env.parsed = ParsedResponse.parseFail →
      ∃ e, generateVariationPromptsWithOpenAI key env = Except.error e) ∧
    (∀ (key e : String),
      selectVariationPrompts key (Except.error e) = Except.error v1NoPromptsErrMsg) ∧
    (∀ (key e : String),
      selectVariationPromptsV2 key (Except.error e) = defaultVariationPrompts) := by
  refine ⟨?_, ?_, ?_, ?_, ?_, ?_⟩
  · intro key env out h
    by_cases hk : key = ""
    · simp [generateVariationPromptsWithOpenAI, hk] at h
    · by_cases hr : env.respOk = false
      · simp [generateVariationPromptsWithOpenAI, hk, hr] at h
      · rcases hp : env.parsed with _ | _ | items
        · simp [generateVariationPromptsWithOpenAI, hk, hr, hp] at h
        · simp [generateVariationPromptsWithOpenAI, hk, hr, hp] at h
        · by_cases h3 : 3 ≤ items.length
          · simp [generateVariationPromptsWithOpenAI, hk, hr, hp, h3] at h
            rw [← h]
            simp [List.length_take]
            omega
          · simp [generateVariationPromptsWithOpenAI, hk, hr, hp, h3] at h
  · intro key env items hk hr hp h3
    have hr2 : ¬ (env.respOk = false) := by simp [hr]
    simp [generateVariationPromptsWithOpenAI, hk, hr2, hp, h3]
  · intro key env items hp h3
    by_cases hk : key = ""
    · exact ⟨"OpenAI API key not available", by simp [generateVariationPromptsWithOpenAI, hk]⟩
    · by_cases hr : env.respOk = false
      · exact ⟨"OpenAI API error: " ++ env.statusText,
          by simp [generateVariationPromptsWithOpenAI, hk, hr]⟩
      · have h32 : ¬ (3 ≤ items.length) := by omega
        exact ⟨"Invalid response format from OpenAI",
          by simp [generateVariationPromptsWithOpenAI, hk, hr, hp, h32]⟩
  · intro key env hp
    by_cases hk : key = ""
    · exact ⟨"OpenAI API key not available", by simp [generateVariationPromptsWithOpenAI, hk]⟩
    · by_cases hr : env.respOk = false
      · exact ⟨"OpenAI API error: " ++ env.statusText,
          by simp [generateVariationPromptsWithOpenAI, hk, hr]⟩
      · exact ⟨"Unexpected token in JSON",
          by simp [generateVariationPromptsWithOpenAI, hk, hr, hp]⟩
  · intro key e
    by_cases hk : key = "" <;> simp [selectVariationPrompts, hk]
  · intro key e
    by_cases hk : key = "" <;> simp [selectVariationPromptsV2, hk]

/-- C3 witness: a parsed array of four entries yields exactly its first
three entries; a two-entry array is a hard failure; revision 2 falls back
to the defaults on a failed call. -/
theorem variation_prompts_witness :
    generateVariationPromptsWithOpenAI "sk-k"
      { respOk := true, statusText := "",
        parsed := ParsedResponse.arr
          [{ name := some "A", prompt := some "pa", description := some "da" },
           { name := some "B", prompt := some "pb", description := some "db" },
           { name := some "C", prompt := some "pc", description := some "dc" },
           { name := some "D", prompt := some "pd", description := some "dd" }] } =
      Except.ok
        [{ name := "A", prompt := "pa", description := "da" },
         { name := "B", prompt := "pb", description := "db" },
         { name := "C", prompt := "pc", description := "dc" }] ∧
    (∃ e, generateVariationPromptsWithOpenAI "sk-k"
      { respOk := true, statusText := "",
        parsed := ParsedResponse.arr
          [{ name := some "A", prompt := some "pa", description := some "da" }] } =
      Except.error e) ∧
    selectVariationPromptsV2 "sk-k" (Except.error "boom") = defaultVariationPrompts := by
  refine ⟨?_, ?_, ?_⟩
  · have h := variation_prompts_amended.2.1 "sk-k"
      { respOk := true, statusText := "",
        parsed := ParsedResponse.arr
          [{ name := some "A", prompt := some "pa", description := some "da" },
           { name := some "B", prompt := some "pb", description := some "db" },
           { name := some "C", prompt := some "pc", description := some "dc" },
           { name := some "D", prompt := some "pd", description := some "dd" }] }
      [{ name := some "A", prompt := some "pa", description := some "da" },
       { name := some "B", prompt := some "pb", description := some "db" },
       { name := some "C", prompt := some "pc", description := some "dc" },
       { name := some "D", prompt := some "pd", description := some "dd" }]
      (by decide) (by rfl) (by rfl) (by decide)
    rw [h]
    rfl
  · exact variation_prompts_amended.2.2.1 "sk-k"
      { respOk := true, statusText := "",
        parsed := ParsedResponse.arr
          [{ name := some "A", prompt := some "pa", description := some "da" }] }
      [{ name := some "A", prompt := some "pa", description := some "da" }]
      (by rfl) (by decide)
  · exact variation_prompts_amended.2.2.2.2.2 "sk-k" "boom"

/-! ## Theorems: claim C10 (generateAd totality) -/

/-- C10: generateAd always resolves and never rejects: every step error
is caught and returned as a resolved response with status failed carrying
the extracted message (non-empty whenever thrown Error objects carry
non-empty messages — non-Error throws map to the non-empty Unknown error
string), while the success path resolves with status completed and the
generated content populated; no result is ever pending. -/
theorem generateAd_total (req : AdRequest) (env : GenerateAdEnv) :
    ((generateAd req env).status = "completed" ∨ (generateAd req env).status = "failed") ∧
    (∀ c, generateAdBody req env = Except.ok c →
      generateAd req env = { status := "completed", generatedContent := some c, error := none }) ∧
    (∀ e, generateAdBody req env = Except.error e →
      generateAd req env =
        { status := "failed", generatedContent := none, error := some (errMessage e) }) ∧
    ((generateAd req env).status = "completed" → (generateAd req env).generatedContent ≠ none) ∧
    (env.wellFormed → ∀ e, generateAdBody req env = Except.error e →
      ∃ m, (generateAd req env).error = some m ∧ m ≠ "") := by
  have horigin : ∀ e, generateAdBody req env = Except.error e →
      env.encode = Except.error e ∨ env.analysis = Except.error e ∨
      env.variations = Except.error e ∨ env.video = Except.error e := by
    intro e he
    unfold generateAdBody at he
    rcases h1 : env.encode with e1 | u1 <;> rw [h1] at he
    · simp at he
      subst he
      exact Or.inl rfl
    · rcases h2 : env.analysis with e2 | a2 <;> rw [h2] at he
      · simp at he
        subst he
        exact Or.inr (Or.inl rfl)
      · by_cases hs : req.skipVariations
        · simp only [hs, if_true] at he
          by_cases hv : req.includeVideoEffects && env.googleReady
          · simp only [hv, if_true] at he
            rcases h4 : env.video with e4 | v4 <;> rw [h4] at he <;> simp [Except.map] at he
            subst he
            exact Or.inr (Or.inr (Or.inr rfl))
          · simp only [hv, if_false] at he
            simp at he
        · simp only [hs, if_false] at he
          rcases h3 : env.variations with e3 | v3 <;> rw [h3] at he <;>
            simp only [Except.map] at he
          · simp at he
            subst he
            exact Or.inr (Or.inr (Or.inl rfl))
          · by_cases hv : req.includeVideoEffects && env.googleReady
            · simp only [hv, if_true] at he
              rcases h4 : env.video with e4 | v4 <;> rw [h4] at he <;> simp [Except.map] at he
              subst he
              exact Or.inr (Or.inr (Or.inr rfl))
            · simp only [hv, if_false] at he
              simp at he
  refine ⟨?_, ?_, ?_, ?_, ?_⟩
  · cases hb : generateAdBody req env <;> simp [generateAd, hb]
  · intro c hc
    simp [generateAd, hc]
  · intro e he
    simp [generateAd, he]
  · cases hb : generateAdBody req env <;> simp [generateAd, hb]
  · intro hwf e he
    have hwfe : e.wellFormed := by
      rcases horigin e he with h | h | h | h
      · exact hwf.1 e h
      · exact hwf.2.1 e h
      · exact hwf.2.2.1 e h
      · exact hwf.2.2.2 e h
    refine ⟨errMessage e, by simp [generateAd, he], ?_⟩
    cases e with
    | errObj m => exact hwfe
    | other => decide

/-- C10 witness: a run whose analysis step throws a non-Error value
resolves with status failed and the non-empty Unknown error message; a
fully successful run resolves completed with content. -/
theorem generateAd_total_witness :
    generateAd { skipVariations := true, includeVideoEffects := false }
      { encode := Except.ok (), analysis := Except.error JsErr.other,
        variations := Except.ok [], googleReady := false, video := Except.ok fallbackVideoResult } =
      { status := "failed", generatedContent := none, error := some "Unknown error" } ∧
    (∃ m, (generateAd { skipVariations := true, includeVideoEffects := false }
      { encode := Except.ok (), analysis := Except.error JsErr.other,
        variations := Except.ok [], googleReady := false,
        video := Except.ok fallbackVideoResult }).error = some m ∧ m ≠ "") ∧
    generateAd { skipVariations := true, includeVideoEffects := false }
      { encode := Except.ok (),
        analysis := Except.ok { productName := "burger", productType := "burger" },
        variations := Except.ok [], googleReady := false,
        video := Except.ok fallbackVideoResult } =
      { status := "completed",
        generatedContent := some
          { imageAnalysis := { productName := "burger", productType := "burger" },
            videoUrl := none, videoPromptText := none, generatedImages := none },
        error := none } := by
  refine ⟨?_, ?_, ?_⟩
  · exact (generateAd_total { skipVariations := true, includeVideoEffects := false }
      { encode := Except.ok (), analysis := Except.error JsErr.other,
        variations := Except.ok [], googleReady := false,
        video := Except.ok fallbackVideoResult }).2.2.1 JsErr.other (by rfl)
  · refine (generateAd_total { skipVariations := true, includeVideoEffects := false }
      { encode := Except.ok (), analysis := Except.error JsErr.other,
        variations := Except.ok [], googleReady := false,
        video := Except.ok fallbackVideoResult }).2.2.2.2 ?_ JsErr.other (by rfl)
    unfold GenerateAdEnv.wellFormed
    refine ⟨?_, ?_, ?_, ?_⟩ <;> intro e h
    · cases h
    · cases h; trivial
    · cases h
    · cases h
  · exact (generateAd_total { skipVariations := true, includeVideoEffects := false }
      { encode := Except.ok (),
        analysis := Except.ok { productName := "burger", productType := "burger" },
        variations := Except.ok [], googleReady := false,
        video := Except.ok fallbackVideoResult }).2.1
      { imageAnalysis := { productName := "burger", productType := "burger" },
        videoUrl := none, videoPromptText := none, generatedImages := none } (by rfl)

/-! ## Helper lemmas for the fence-stripping analysis (claim C9) -/

theorem lengthDropWhileLe (p : Char → Bool) (l : List Char) :
    (List.dropWhile p l).length ≤ l.length := by
  induction l with
  | nil => simp
  | cons c rest ih =>
    rw [List.dropWhile_cons]
    split
    · exact Nat.le_trans ih (by simp)
    · simp

theorem dropWhileEqSelfOfLength (p : Char → Bool) (l : List Char)
    (h : (List.dropWhile p l).length = l.length) : List.dropWhile p l = l := by
  cases l with
  | nil => simp
  | cons c rest =>
    by_cases hc : p c
    · exfalso
      rw [List.dropWhile_cons, if_pos hc] at h
      have h2 := lengthDropWhileLe p rest
      simp at h
      omega
    · rw [List.dropWhile_cons, if_neg hc]

theorem trimLeftLConsNotSpace (c : Char) (s : List Char) (h : isJsSpace c = false) :
    trimLeftL (c :: s) = c :: s := by
  simp [trimLeftL, List.dropWhile_cons, h]

theorem headNotSpaceOfTrimLeftLFix (c : Char) (s : List Char)
    (h : trimLeftL (c :: s) = c :: s) : isJsSpace c = false := by
  by_cases hc : isJsSpace c
  · exfalso
    rw [trimLeftL, List.dropWhile_cons, if_pos hc] at h
    have h2 := lengthDropWhileLe isJsSpace s
    have h3 := congrArg List.length h
    simp at h3
    omega
  · simpa using hc

theorem trimLeftLAppendFix (a x : List Char) (ha : a ≠ []) (h : trimLeftL a = a) :
    trimLeftL (a ++ x) = a ++ x := by
  cases a with
  | nil => exact absurd rfl ha
  | cons c a2 =>
    have hc := headNotSpaceOfTrimLeftLFix c a2 h
    rw [List.cons_append]
    exact trimLeftLConsNotSpace c (a2 ++ x) hc

theorem trimRightLFixIff (s : List Char) :
    trimRightL s = s ↔ trimLeftL s.reverse = s.reverse := by
  unfold trimRightL trimLeftL
  constructor
  · intro h
    have h2 := congrArg List.reverse h
    simpa using h2
  · intro h
    rw [h, List.reverse_reverse]

theorem trimRightLAppendFix (x b : List Char) (hb : b ≠ []) (h : trimRightL b = b) :
    trimRightL (x ++ b) = x ++ b := by
  rw [trimRightLFixIff] at h ⊢
  rw [List.reverse_append]
  exact trimLeftLAppendFix b.reverse x.reverse (by simpa using hb) h

theorem trimPartsOfFix (s : List Char) (h : trimFullL s = s) :
    trimLeftL s = s ∧ trimRightL s = s := by
  have h1 : (trimLeftL s).length ≤ s.length := lengthDropWhileLe isJsSpace s
  have h2 : (trimRightL (trimLeftL s)).length ≤ (trimLeftL s).length := by
    unfold trimRightL
    have h4 := lengthDropWhileLe isJsSpace (trimLeftL s).reverse
    simpa using h4
  unfold trimFullL at h
  have h3 := congrArg List.length h
  have hlen : (trimLeftL s).length = s.length := by omega
  have hL : trimLeftL s = s := dropWhileEqSelfOfLength isJsSpace s hlen
  refine ⟨hL, ?_⟩
  rw [hL] at h
  exact h

theorem trimRightLNewline (s : List Char) (h : trimRightL s = s) :
    trimRightL (s ++ "\n".data) = s := by
  rw [trimRightLFixIff] at h
  unfold trimLeftL at h
  unfold trimRightL
  rw [List.reverse_append]
  rw [show ("\n".data.reverse ++ s.reverse) = '\n' :: s.reverse from rfl]
  rw [List.dropWhile_cons, if_pos (by decide)]
  rw [h]
  exact List.reverse_reverse s

theorem startsWithLAppendSelf (p r : List Char) : startsWithL p (p ++ r) = true := by
  induction p with
  | nil => rfl
  | cons c p2 ih => simp [startsWithL, ih]

theorem startsWithLIff (p : List Char) :
    ∀ s : List Char, startsWithL p s = true ↔ ∃ t, s = p ++ t := by
  induction p with
  | nil =>
    intro s
    simp [startsWithL]
  | cons c p2 ih =>
    intro s
    cases s with
    | nil =>
      simp [startsWithL]
    | cons d s2 =>
      constructor
      · intro h
        simp only [startsWithL, Bool.and_eq_true, beq_iff_eq] at h
        rcases h with ⟨hcd, h2⟩
        rcases (ih s2).mp h2 with ⟨t, ht⟩
        exact ⟨t, by rw [hcd, ht]; rfl⟩
      · intro ⟨t, ht⟩
        rw [List.cons_append] at ht
        injection ht with h1 h2
        subst h1
        simp only [startsWithL, beq_self_eq_true, Bool.true_and]
        exact (ih s2).mpr ⟨t, h2⟩

theorem endsWithLAppendSelf (p x : List Char) : endsWithL p (x ++ p) = true := by
  unfold endsWithL
  rw [List.reverse_append]
  exact startsWithLAppendSelf p.reverse x.reverse

theorem startsWithLFenceOfFenceJson (s : List Char) (h : startsWithL fenceJsonTok s = true) :
    startsWithL fenceTok s = true := by
  rcases (startsWithLIff fenceJsonTok s).mp h with ⟨t, ht⟩
  have h2 : s = fenceTok ++ ("json".data ++ t) := by rw [ht]; rfl
  rw [h2]
  exact startsWithLAppendSelf fenceTok ("json".data ++ t)

theorem fenceJsonNotAtPlain (y : List Char) :
    startsWithL fenceJsonTok ("```\n".data ++ y) = false := by
  cases h : startsWithL fenceJsonTok ("```\n".data ++ y) with
  | false => rfl
  | true =>
    exfalso
    rcases (startsWithLIff fenceJsonTok _).mp h with ⟨t, ht⟩
    have h3 := congrArg (fun l => l[3]?) ht
    simp only at h3
    rw [List.getElem?_append_left (by decide : (3:Nat) < ("```\n".data).length)] at h3
    rw [List.getElem?_append_left (by decide : (3:Nat) < fenceJsonTok.length)] at h3
    exact absurd h3 (by decide)

theorem stripAllTokNil (tok : List Char) (f : Nat) : stripAllTok tok f [] = [] := by
  cases f <;> rfl

theorem stripAllTokFuel (tok : List Char) (hne : tok ≠ []) :
    ∀ (f : Nat) (s : List Char), s.length ≤ f →
      stripAllTok tok f s = stripAllTok tok s.length s := by
  intro f
  induction f using Nat.strong_induction_on with
  | _ f ih =>
    intro s hs
    cases f with
    | zero =>
      have hnil : s = [] := List.eq_nil_of_length_eq_zero (Nat.le_zero.mp hs)
      rw [hnil]
      rfl
    | succ f2 =>
      cases s with
      | nil => rw [stripAllTokNil, stripAllTokNil]
      | cons c rest =>
        have htl : 1 ≤ tok.length := List.length_pos.mpr hne
        have hrf : rest.length ≤ f2 := by
          have := hs
          simp at this
          omega
        by_cases hmatch : startsWithL tok (c :: rest) = true
        · have hs2 : (((c :: rest).drop tok.length).dropWhile isJsSpace).length ≤ rest.length := by
            have hd := lengthDropWhileLe isJsSpace ((c :: rest).drop tok.length)
            have hd2 : ((c :: rest).drop tok.length).length = (rest.length + 1) - tok.length := by
              simp [List.length_drop]
            omega
          rw [show (c :: rest).length = rest.length + 1 from by simp]
          simp only [stripAllTok, hmatch, if_true]
          rw [ih f2 (by omega) _ (by omega), ih rest.length (by omega) _ (by omega)]
        · have hm2 : startsWithL tok (c :: rest) = false := by
            cases h2 : startsWithL tok (c :: rest)
            · rfl
            · exact absurd h2 hmatch
          rw [show (c :: rest).length = rest.length + 1 from by simp]
          simp only [stripAllTok, hm2, Bool.false_eq_true, if_false]
          rw [ih f2 (by omega) rest hrf, ih rest.length (by omega) rest (le_refl _)]

theorem stripAllTokEqSelf (tok : List Char) :
    ∀ (f : Nat) (s : List Char), s.length ≤ f →
      (∀ u t : List Char, s = u ++ t → startsWithL tok t = false) →
      stripAllTok tok f s = s := by
  intro f
  induction f with
  | zero =>
    intro s hs _
    have hnil : s = [] := List.eq_nil_of_length_eq_zero (Nat.le_zero.mp hs)
    rw [hnil]
    rfl
  | succ f2 ih =>
    intro s hs hcond
    cases s with
    | nil => rfl
    | cons c rest =>
      have h0 : startsWithL tok (c :: rest) = false := hcond [] (c :: rest) rfl
      simp only [stripAllTok, h0, Bool.false_eq_true, if_false]
      have hrest : stripAllTok tok f2 rest = rest := by
        refine ih rest (by simp at hs; omega) ?_
        intro u t hdec
        exact hcond (c :: u) t (by rw [hdec]; rfl)
      rw [hrest]

theorem stripAllTokAppend (tok : List Char) (hne : tok ≠ []) :
    ∀ (s : List Char) (f : Nat) (r : List Char), s.length + r.length ≤ f →
      (∀ u t : List Char, s = u ++ t → t ≠ [] → startsWithL tok (t ++ r) = false) →
      stripAllTok tok f (s ++ r) = s ++ stripAllTok tok r.length r := by
  intro s
  induction s with
  | nil =>
    intro f r hf _
    simpa using stripAllTokFuel tok hne f r (by simpa using hf)
  | cons c s2 ih =>
    intro f r hf hcond
    cases f with
    | zero =>
      exfalso
      simp only [List.length_cons] at hf
      omega
    | succ f2 =>
      have h0 : startsWithL tok (c :: (s2 ++ r)) = false := by
        have h1 := hcond [] (c :: s2) rfl (by simp)
        rw [List.cons_append] at h1
        exact h1
      have hrec : stripAllTok tok f2 (s2 ++ r) = s2 ++ stripAllTok tok r.length r := by
        refine ih f2 r (by simp at hf; omega) ?_
        intro u t hdec htne
        exact hcond (c :: u) t (by rw [hdec]; rfl) htne
      calc stripAllTok tok (f2 + 1) ((c :: s2) ++ r)
          = stripAllTok tok (f2 + 1) (c :: (s2 ++ r)) := by rw [List.cons_append]
        _ = c :: stripAllTok tok f2 (s2 ++ r) := by
              simp only [stripAllTok, h0, Bool.false_eq_true, if_false]
        _ = c :: (s2 ++ stripAllTok tok r.length r) := by rw [hrec]
        _ = (c :: s2) ++ stripAllTok tok r.length r := by rw [List.cons_append]

theorem noBacktickNoTok (tok : List Char) (htok : tok.head? = some btChar)
    (s : List Char) (hs : noBacktick s) :
    ∀ u t : List Char, s = u ++ t → startsWithL tok t = false := by
  intro u t hdec
  cases tok with
  | nil => cases htok
  | cons e tok2 =>
    have he : e = btChar := by simpa using htok
    cases t with
    | nil => rfl
    | cons d t2 =>
      have hd : d ∈ s := by
        rw [hdec]
        exact List.mem_append.mpr (Or.inr (by simp))
      have hdb : d ≠ btChar := hs d hd
      have hbd : (e == d) = false := by
        rw [he]
        exact beq_eq_false_iff_ne.mpr (Ne.symm hdb)
      simp [startsWithL, hbd]

theorem noBacktickNoTokAppend (tok : List Char) (htok : tok.head? = some btChar)
    (s r : List Char) (hs : noBacktick s) :
    ∀ u t : List Char, s = u ++ t → t ≠ [] → startsWithL tok (t ++ r) = false := by
  intro u t hdec htne
  cases tok with
  | nil => cases htok
  | cons e tok2 =>
    have he : e = btChar := by simpa using htok
    cases t with
    | nil => exact absurd rfl htne
    | cons d t2 =>
      have hd : d ∈ s := by
        rw [hdec]
        exact List.mem_append.mpr (Or.inr (by simp))
      have hdb : d ≠ btChar := hs d hd
      have hbd : (e == d) = false := by
        rw [he]
        exact beq_eq_false_iff_ne.mpr (Ne.symm hdb)
      rw [List.cons_append]
      simp [startsWithL, hbd]

theorem stripAllTokConsumeTok (tok : List Char) (hne : tok ≠ []) (f : Nat) (x : List Char) :
    stripAllTok tok (f + 1) (tok ++ x) = stripAllTok tok f (x.dropWhile isJsSpace) := by
  cases tok with
  | nil => exact absurd rfl hne
  | cons c tok2 =>
    rw [List.cons_append]
    simp only [stripAllTok]
    rw [if_pos (by rw [← List.cons_append]; exact startsWithLAppendSelf (c :: tok2) x)]
    congr 1
    rw [← List.cons_append]
    rw [List.drop_left]

theorem cleanGlobalUnwrapped (s : List Char) (htrim : trimFullL s = s) (hbt : noBacktick s) :
    cleanGlobalResponse s = s := by
  simp only [cleanGlobalResponse]
  have h1 : stripAllTok fenceJsonTok s.length s = s :=
    stripAllTokEqSelf fenceJsonTok s.length s (le_refl _)
      (noBacktickNoTok fenceJsonTok (by decide) s hbt)
  rw [h1]
  have h2 : stripAllTok fenceTok s.length s = s :=
    stripAllTokEqSelf fenceTok s.length s (le_refl _)
      (noBacktickNoTok fenceTok (by decide) s hbt)
  rw [h2, htrim]

theorem cleanGlobalWrapped (s : List Char) (htrim : trimFullL s = s) (hbt : noBacktick s) :
    cleanGlobalResponse ("```json\n".data ++ s ++ "\n```".data) = s := by
  cases s with
  | nil => decide
  | cons c0 s3 =>
    rw [List.append_assoc]
    have hL := (trimPartsOfFix _ htrim).1
    have hR := (trimPartsOfFix _ htrim).2
    have hc0 : isJsSpace c0 = false := headNotSpaceOfTrimLeftLFix c0 s3 hL
    have hinner : stripAllTok fenceJsonTok
        ("```json\n".data ++ ((c0 :: s3) ++ "\n```".data)).length
        ("```json\n".data ++ ((c0 :: s3) ++ "\n```".data)) =
        (c0 :: s3) ++ "\n```".data := by
      have hw : "```json\n".data ++ ((c0 :: s3) ++ "\n```".data) =
          fenceJsonTok ++ ('\n' :: ((c0 :: s3) ++ "\n```".data)) := rfl
      have hwl : ("```json\n".data ++ ((c0 :: s3) ++ "\n```".data)).length =
          (7 + ((c0 :: s3) ++ "\n```".data).length) + 1 := by
        have h8 : ("```json\n".data).length = 8 := rfl
        simp only [List.length_append, List.length_cons, h8]
        omega
      rw [hwl, hw, stripAllTokConsumeTok fenceJsonTok (by decide)]
      rw [show List.dropWhile isJsSpace ('\n' :: ((c0 :: s3) ++ "\n```".data)) =
          List.dropWhile isJsSpace ((c0 :: s3) ++ "\n```".data) from by
        rw [List.dropWhile_cons, if_pos (by decide)]]
      rw [show List.dropWhile isJsSpace ((c0 :: s3) ++ "\n```".data) =
          (c0 :: s3) ++ "\n```".data from by
        rw [List.cons_append, List.dropWhile_cons, if_neg (by simp [hc0]), ← List.cons_append]]
      rw [stripAllTokAppend fenceJsonTok (by decide) (c0 :: s3)
        (7 + ((c0 :: s3) ++ "\n```".data).length) "\n```".data
        (by simp only [List.length_append, List.length_cons]; omega)
        (noBacktickNoTokAppend fenceJsonTok (by decide) (c0 :: s3) "\n```".data hbt)]
      rw [show stripAllTok fenceJsonTok ("\n```".data).length "\n```".data = "\n```".data
        from by decide]
    rw [show cleanGlobalResponse ("```json\n".data ++ ((c0 :: s3) ++ "\n```".data)) =
      trimFullL (stripAllTok fenceTok
        (stripAllTok fenceJsonTok
          ("```json\n".data ++ ((c0 :: s3) ++ "\n```".data)).length
          ("```json\n".data ++ ((c0 :: s3) ++ "\n```".data))).length
        (stripAllTok fenceJsonTok
          ("```json\n".data ++ ((c0 :: s3) ++ "\n```".data)).length
          ("```json\n".data ++ ((c0 :: s3) ++ "\n```".data)))) from rfl]
    rw [hinner]
    rw [stripAllTokAppend fenceTok (by decide) (c0 :: s3)
      ((c0 :: s3) ++ "\n```".data).length "\n```".data
      (by simp [List.length_append])
      (noBacktickNoTokAppend fenceTok (by decide) (c0 :: s3) "\n```".data hbt)]
    rw [show stripAllTok fenceTok ("\n```".data).length "\n```".data = "\n".data from by decide]
    unfold trimFullL
    rw [trimLeftLAppendFix (c0 :: s3) "\n".data (by simp) hL]
    exact trimRightLNewline (c0 :: s3) hR

theorem cleanFencedUnwrapped (s : List Char) (htrim : trimFullL s = s)
    (hfence : startsWithL fenceTok s = false) : cleanFencedResponse s = s := by
  have hj : startsWithL fenceJsonTok s = false := by
    cases h : startsWithL fenceJsonTok s with
    | false => rfl
    | true =>
      exfalso
      rw [startsWithLFenceOfFenceJson s h] at hfence
      cases hfence
  simp [cleanFencedResponse, htrim, hj, hfence]

theorem trimFullLWrapFix (a : List Char) (hane : a ≠ []) (hLa : trimLeftL a = a)
    (mid : List Char) :
    trimFullL (a ++ (mid ++ "\n```".data)) = a ++ (mid ++ "\n```".data) := by
  unfold trimFullL
  rw [trimLeftLAppendFix a (mid ++ "\n```".data) hane hLa]
  rw [show a ++ (mid ++ "\n```".data) = (a ++ (mid ++ "\n".data)) ++ fenceTok from by
    simp [fenceTok, List.append_assoc]]
  exact trimRightLAppendFix (a ++ (mid ++ "\n".data)) fenceTok (by decide) (by decide)

theorem dropClosingFenceNewline (s : List Char) (hR : trimRightL s = s) :
    dropClosingFence (s ++ "\n```".data) = s := by
  unfold dropClosingFence
  rw [show s ++ "\n```".data = (s ++ "\n".data) ++ fenceTok from by
    simp [fenceTok, List.append_assoc]]
  rw [if_pos (endsWithLAppendSelf fenceTok (s ++ "\n".data))]
  rw [show ((s ++ "\n".data) ++ fenceTok).length - 3 = (s ++ "\n".data).length from by
    have h3 : fenceTok.length = 3 := rfl
    simp only [List.length_append, h3]
    omega]
  rw [List.take_left]
  exact trimRightLNewline s hR

theorem cleanFencedWrappedJson (s : List Char) (htrim : trimFullL s = s) :
    cleanFencedResponse ("```json\n".data ++ s ++ "\n```".data) = s := by
  cases s with
  | nil => decide
  | cons c0 s3 =>
    rw [List.append_assoc]
    have hL := (trimPartsOfFix _ htrim).1
    have hR := (trimPartsOfFix _ htrim).2
    have hc0 : isJsSpace c0 = false := headNotSpaceOfTrimLeftLFix c0 s3 hL
    have htw : trimFullL ("```json\n".data ++ ((c0 :: s3) ++ "\n```".data)) =
        "```json\n".data ++ ((c0 :: s3) ++ "\n```".data) :=
      trimFullLWrapFix "```json\n".data (by decide) (by decide) (c0 :: s3)
    have hbody : cleanFencedResponse ("```json\n".data ++ ((c0 :: s3) ++ "\n```".data)) =
        (if startsWithL fenceJsonTok
              (trimFullL ("```json\n".data ++ ((c0 :: s3) ++ "\n```".data))) = true then
          dropClosingFence (trimLeftL
            ((trimFullL ("```json\n".data ++ ((c0 :: s3) ++ "\n```".data))).drop 7))
        else if startsWithL fenceTok
              (trimFullL ("```json\n".data ++ ((c0 :: s3) ++ "\n```".data))) = true then
          dropClosingFence (trimLeftL
            ((trimFullL ("```json\n".data ++ ((c0 :: s3) ++ "\n```".data))).drop 3))
        else trimFullL ("```json\n".data ++ ((c0 :: s3) ++ "\n```".data))) := rfl
    rw [hbody, htw]
    rw [show "```json\n".data ++ ((c0 :: s3) ++ "\n```".data) =
        fenceJsonTok ++ ('\n' :: ((c0 :: s3) ++ "\n```".data)) from rfl]
    rw [if_pos (startsWithLAppendSelf fenceJsonTok ('\n' :: ((c0 :: s3) ++ "\n```".data)))]
    rw [show (7 : Nat) = fenceJsonTok.length from rfl, List.drop_left]
    rw [show trimLeftL ('\n' :: ((c0 :: s3) ++ "\n```".data)) =
        trimLeftL ((c0 :: s3) ++ "\n```".data) from by
      unfold trimLeftL
      rw [List.dropWhile_cons, if_pos (by decide)]]
    rw [trimLeftLAppendFix (c0 :: s3) "\n```".data (by simp) hL]
    exact dropClosingFenceNewline (c0 :: s3) hR

theorem cleanFencedWrappedPlain (s : List Char) (htrim : trimFullL s = s) :
    cleanFencedResponse ("```\n".data ++ s ++ "\n```".data) = s := by
  cases s with
  | nil => decide
  | cons c0 s3 =>
    rw [List.append_assoc]
    have hL := (trimPartsOfFix _ htrim).1
    have hR := (trimPartsOfFix _ htrim).2
    have hc0 : isJsSpace c0 = false := headNotSpaceOfTrimLeftLFix c0 s3 hL
    have htw : trimFullL ("```\n".data ++ ((c0 :: s3) ++ "\n```".data)) =
        "```\n".data ++ ((c0 :: s3) ++ "\n```".data) :=
      trimFullLWrapFix "```\n".data (by decide) (by decide) (c0 :: s3)
    have hbody : cleanFencedResponse ("```\n".data ++ ((c0 :: s3) ++ "\n```".data)) =
        (if startsWithL fenceJsonTok
              (trimFullL ("```\n".data ++ ((c0 :: s3) ++ "\n```".data))) = true then
          dropClosingFence (trimLeftL
            ((trimFullL ("```\n".data ++ ((c0 :: s3) ++ "\n```".data))).drop 7))
        else if startsWithL fenceTok
              (trimFullL ("```\n".data ++ ((c0 :: s3) ++ "\n```".data))) = true then
          dropClosingFence (trimLeftL
            ((trimFullL ("```\n".data ++ ((c0 :: s3) ++ "\n```".data))).drop 3))
        else trimFullL ("```\n".data ++ ((c0 :: s3) ++ "\n```".data))) := rfl
    rw [hbody, htw]
    rw [fenceJsonNotAtPlain ((c0 :: s3) ++ "\n```".data)]
    simp only [Bool.false_eq_true, if_false]
    rw [show "```\n".data ++ ((c0 :: s3) ++ "\n```".data) =
        fenceTok ++ ('\n' :: ((c0 :: s3) ++ "\n```".data)) from rfl]
    rw [if_pos (startsWithLAppendSelf fenceTok ('\n' :: ((c0 :: s3) ++ "\n```".data)))]
    rw [show (3 : Nat) = fenceTok.length from rfl, List.drop_left]
    rw [show trimLeftL ('\n' :: ((c0 :: s3) ++ "\n```".data)) =
        trimLeftL ((c0 :: s3) ++ "\n```".data) from by
      unfold trimLeftL
      rw [List.dropWhile_cons, if_pos (by decide)]]
    rw [trimLeftLAppendFix (c0 :: s3) "\n```".data (by simp) hL]
    exact dropClosingFenceNewline (c0 :: s3) hR

/-! ## Theorems: claim C9 (fence stripping) -/

/-- C9 counterexample: the marketingpostService global fence-strip CHANGES
an already-unwrapped, trimmed response text that merely contains a fence
inside a JSON string — it deletes the three inner backticks — refuting
the claim that stripping an already-unwrapped text leaves it unchanged;
the aiService anchored strip leaves the same text alone. -/
theorem global_strip_changes_text_counterexample :
    cleanGlobalResponse "[\"x```y\"]".data = "[\"xy\"]".data ∧
    "[\"x```y\"]".data ≠ "[\"xy\"]".data ∧
    trimFullL "[\"x```y\"]".data = "[\"x```y\"]".data ∧
    startsWithL fenceTok "[\"x```y\"]".data = false ∧
    cleanFencedResponse "[\"x```y\"]".data = "[\"x```y\"]".data := by
  exact ⟨by decide, by decide, by decide, by decide, by decide⟩

/-- C9 (amended): the aiService anchored strip is content-preserving and
leaves unwrapped text unchanged, for any trimmed content that does not
itself start with a fence: a json-tagged or plain fence wrap around the
content strips back to exactly the content. The marketingpostService
global strip has the same properties only for content with no backtick at
all — it deletes every fence occurrence anywhere, including inside JSON
string values. -/
theorem fence_strip_amended :
    (∀ s : List Char, trimFullL s = s → startsWithL fenceTok s = false →
      cleanFencedResponse ("```json\n".data ++ s ++ "\n```".data) = s ∧
      cleanFencedResponse ("```\n".data ++ s ++ "\n```".data) = s ∧
      cleanFencedResponse s = s) ∧
    (∀ s : List Char, trimFullL s = s → noBacktick s →
      cleanGlobalResponse ("```json\n".data ++ s ++ "\n```".data) = s ∧
      cleanGlobalResponse s = s) := by
  constructor
  · intro s ht hf
    exact ⟨cleanFencedWrappedJson s ht, cleanFencedWrappedPlain s ht,
           cleanFencedUnwrapped s ht hf⟩
  · intro s ht hb
    exact ⟨cleanGlobalWrapped s ht hb, cleanGlobalUnwrapped s ht hb⟩

/-- C9 witness: the JSON array text [1, 2], wrapped in either fence form,
strips back to exactly itself under both implementations, and both leave
the unwrapped text unchanged. -/
theorem fence_strip_witness :
    cleanFencedResponse "```json\n[1, 2]\n```".data = "[1, 2]".data ∧
    cleanFencedResponse "```\n[1, 2]\n```".data = "[1, 2]".data ∧
    cleanFencedResponse "[1, 2]".data = "[1, 2]".data ∧
    cleanGlobalResponse "```json\n[1, 2]\n```".data = "[1, 2]".data ∧
    cleanGlobalResponse "[1, 2]".data = "[1, 2]".data := by
  have h1 := fence_strip_amended.1 "[1, 2]".data (by decide) (by decide)
  have h2 := fence_strip_amended.2 "[1, 2]".data (by decide) (by unfold noBacktick; decide)
  refine ⟨?_, ?_, h1.2.2, ?_, h2.2⟩
  · rw [show "```json\n[1, 2]\n```".data =
      "```json\n".data ++ "[1, 2]".data ++ "\n```".data from rfl]
    exact h1.1
  · rw [show "```\n[1, 2]\n```".data = "```\n".data ++ "[1, 2]".data ++ "\n```".data from rfl]
    exact h1.2.1
  · rw [show "```json\n[1, 2]\n```".data =
      "```json\n".data ++ "[1, 2]".data ++ "\n```".data from rfl]
    exact h2.1

end AdGen
